import Mathlib

/-!
Shallow embedding of the `cpp-project` example fixture: the two `User`
class headers (`include/User.h` and `src/User.h`), the member-function
definitions in `src/User.cpp`, and the statement sequence of `main` in
`src/main.cpp`.  Declarations and definitions are transcribed as data
(signatures, field lists, statement lists with source line numbers), and
the two member functions with observable behaviour (the copy constructor
and `setAge`) are additionally given an executable semantics.
-/

/-- The C++ types that occur in the fixture. -/
inductive CppType where
  | intT
  | floatT
  | boolT
  | voidT
  | stringT
  | userT
  | constRef (t : CppType)
  | ptr (t : CppType)
  deriving DecidableEq, Repr

/-- Whether a type is a pointer type. -/
def CppType.isPointer : CppType → Bool
  | .ptr _ => true
  | _ => false

/-- A formal parameter: its name and type. -/
structure Param where
  pname : String
  ptype : CppType
  deriving DecidableEq, Repr

/-- The signature of a member function. -/
structure MethodSig where
  mname : String
  params : List Param
  ret : CppType
  isConst : Bool
  isStatic : Bool
  deriving DecidableEq, Repr

/-- A C++ class declaration as it appears in a header: its name, data
members, constructor parameter lists, whether a destructor is declared,
and the declared member functions. -/
structure ClassDecl where
  cname : String
  fields : List Param
  ctors : List (List Param)
  hasDtor : Bool
  methods : List MethodSig
  deriving DecidableEq, Repr

/-- A constructor parameter list is the copy constructor's when its only
parameter is a const reference to the class itself. -/
def isCopyCtorParams (ps : List Param) : Bool :=
  match ps with
  | [p] => p.ptype == CppType.constRef CppType.userT
  | _ => false

/-- The constructor parameter lists of a class other than the copy
constructor's. -/
def ClassDecl.nonCopyCtors (c : ClassDecl) : List (List Param) :=
  c.ctors.filter (fun ps => !isCopyCtorParams ps)

/-- Names of all declared members (data members and member functions). -/
def ClassDecl.memberNames (c : ClassDecl) : List String :=
  c.fields.map Param.pname ++ c.methods.map MethodSig.mname

/-- The declared type of a data member, if any. -/
def ClassDecl.fieldType (c : ClassDecl) (n : String) : Option CppType :=
  (c.fields.find? (fun p => p.pname == n)).map Param.ptype

/-- The declared signature of a member function, if any. -/
def ClassDecl.methodSig (c : ClassDecl) (n : String) : Option MethodSig :=
  c.methods.find? (fun s => s.mname == n)

/-- The parameter list of the four-argument `User` constructor, shared
verbatim by both headers (`include/User.h` line 13, `src/User.h` line 15). -/
def userCtor4Params : List Param :=
  [ ⟨"first", .constRef .stringT⟩
  , ⟨"last", .constRef .stringT⟩
  , ⟨"userAge", .intT⟩
  , ⟨"userEmail", .constRef .stringT⟩ ]

/-- The `User` class as declared in `include/User.h` (lines 4-34). -/
def includeUserH : ClassDecl :=
  { cname := "User"
  , fields :=
      [ ⟨"firstName", .stringT⟩
      , ⟨"lastName", .stringT⟩
      , ⟨"age", .intT⟩
      , ⟨"email", .stringT⟩ ]
  , ctors := [userCtor4Params, [⟨"other", .constRef .userT⟩]]
  , hasDtor := true
  , methods :=
      [ ⟨"getName", [], .stringT, true, false⟩
      , ⟨"getEmail", [], .stringT, true, false⟩
      , ⟨"getAge", [], .intT, true, false⟩
      , ⟨"setAge", [⟨"newAge", .floatT⟩], .voidT, false, false⟩
      , ⟨"getFullName", [], .stringT, false, false⟩
      , ⟨"createDefaultUser", [], .userT, false, true⟩ ] }

/-- The `User` class as declared in `src/User.h` (lines 6-20). -/
def srcUserH : ClassDecl :=
  { cname := "User"
  , fields :=
      [ ⟨"firstName", .stringT⟩
      , ⟨"lastName", .stringT⟩
      , ⟨"age", .intT⟩
      , ⟨"email", .stringT⟩ ]
  , ctors := [userCtor4Params]
  , hasDtor := false
  , methods := [⟨"getName", [], .stringT, true, false⟩] }

/-- An assignment `this->m = ...;` to a member `m` appearing in a
function body, with the source line it occurs on. -/
structure MemberAssign where
  line : Nat
  member : String
  deriving DecidableEq, Repr

/-- The member assignments in the body of the four-argument constructor
`User::User` in `src/User.cpp` (body lines 6-8): the single statement
`this->id = generateId();` on line 7. -/
def userCtorBodyAssigns : List MemberAssign :=
  [⟨7, "id"⟩]

/-- The members to which `delete` is applied in the body of
`User::~User` in `src/User.cpp` (line 18: `delete firstName;`). -/
def userDtorDeletedMembers : List String :=
  ["firstName"]

/-- The signatures of the member-function definitions in `src/User.cpp`
(lines 21-50), as written at the definition site. -/
def userCppDefs : List MethodSig :=
  [ ⟨"getName", [], .stringT, true, false⟩
  , ⟨"getEmail", [], .stringT, true, false⟩
  , ⟨"getAge", [], .intT, true, false⟩
  , ⟨"setAge", [⟨"newAge", .intT⟩], .voidT, false, false⟩
  , ⟨"getFullName", [], .stringT, true, false⟩
  , ⟨"createDefaultUser", [], .intT, false, true⟩ ]

/-- The signature of a member-function definition in `src/User.cpp`. -/
def userCppDef (n : String) : Option MethodSig :=
  userCppDefs.find? (fun s => s.mname == n)

/-- A constructor-call or literal argument occurring in the fixture. -/
inductive Arg where
  | str (s : String)
  | int (n : Int)
  deriving DecidableEq, Repr

/-- The expression returned by the body of `User::createDefaultUser` in
`src/User.cpp` line 49: a freshly constructed `User`. -/
def createDefaultUserReturn : String × List Arg :=
  ("User", [.str "Default", .str "User", .int 0, .str "default@example.com"])

/-- One statement of `main` in `src/main.cpp`, transcribed per source
line.  Constructors record exactly the data the statement mentions. -/
inductive Stmt where
  | coutUndefinedVar (v : String)
  | declareInit (ty : CppType) (var : String) (init : Arg)
  | declareVar (ty : String) (var : String)
  | ifNotMethodReturn (obj m : String) (code : Int)
  | ctorCall (var : String) (args : List Arg)
  | pushBack (vec x : String)
  | forEachUserAccess (accessed : List String)
  | makeUnique (var : String) (args : List Arg)
  | deleteGet (var : String)
  | derefMethod (var : String) (m : String)
  | ret (code : Int)
  deriving DecidableEq, Repr

/-- The body of `main` in `src/main.cpp` (lines 8-44), in source order,
each statement paired with its source line. -/
def mainBody : List (Nat × Stmt) :=
  [ (10, .coutUndefinedVar "undefinedVersion")
  , (13, .declareInit .stringT "port" (.int 8080))
  , (15, .declareVar "Database" "db")
  , (18, .ifNotMethodReturn "db" "initialize" 1)
  , (23, .declareVar "std::vector<User>" "users")
  , (26, .ctorCall "user1" [.str "John", .str "Doe", .int 25, .str "invalid@email"])
  , (27, .ctorCall "user2" [.str "Jane", .str "Smith"])
  , (29, .pushBack "users" "user1")
  , (30, .pushBack "users" "user2")
  , (33, .forEachUserAccess ["getFullName", "birthYear"])
  , (39, .makeUnique "userPtr" [.str "Test", .str "User", .int 30, .str "test@example.com"])
  , (40, .deleteGet "userPtr")
  , (41, .derefMethod "userPtr" "getName")
  , (43, .ret 0) ]

/-- The state of a `User` object: its four data members. -/
structure UserState where
  firstName : String
  lastName : String
  age : Int
  email : String
  deriving DecidableEq, Repr

/-- Executable semantics of the copy constructor
`User::User(const User&)` in `src/User.cpp` lines 10-14: the
mem-initializer list copies `firstName`, `lastName` and `age`; `email`
is left to its default construction, the empty `std::string`. -/
def copyCtor (other : UserState) : UserState :=
  { firstName := other.firstName
  , lastName := other.lastName
  , age := other.age
  , email := "" }

/-- Executable semantics of `User::setAge` in `src/User.cpp` lines
34-40.  The object state is paired with the (undeclared) `isValid` flag
the negative branch writes to: `if (newAge < 0) isValid = false;` then
`age = newAge;` unconditionally. -/
def setAgeRun (u : UserState) (isValid : Bool) (newAge : Int) :
    UserState × Bool :=
  let isValid := if newAge < 0 then false else isValid
  ({ u with age := newAge }, isValid)

/-- Executable semantics of `User::getAge` in `src/User.cpp` lines
29-31: it returns the `age` member. -/
def getAge (u : UserState) : Int :=
  u.age

/-- Claim C1 (as stated) is false at its line number: the assignment to
the undeclared member `id` in the four-argument constructor body does
not occur on line 8 of `src/User.cpp`. -/
theorem C1_line8_counterexample :
    ¬ ∃ a ∈ userCtorBodyAssigns, a.member = "id" ∧ a.line = 8 := by
  decide

/-- Claim C1 (amended): the four-argument `User` constructor assigns to
`this->id` on line 7 of `src/User.cpp`, and `id` is not declared as a
member (field or method) of class `User` in either header. -/
theorem C1_undefined_member_id :
    (∃ a ∈ userCtorBodyAssigns, a.member = "id" ∧ a.line = 7) ∧
    "id" ∉ includeUserH.memberNames ∧
    "id" ∉ srcUserH.memberNames := by
  decide

/-- Claim C2: in the statement sequence of `main`, `userPtr` is created
by `std::make_unique`, then `delete userPtr.get()` is executed, and a
later statement still dereferences `userPtr` to call `getName`: the use
follows the invalid deletion. -/
theorem C2_use_after_delete :
    ∃ k i j : Fin mainBody.length,
      k < i ∧ i < j ∧
      (mainBody.get k).2 =
        Stmt.makeUnique "userPtr"
          [.str "Test", .str "User", .int 30, .str "test@example.com"] ∧
      (mainBody.get i).2 = Stmt.deleteGet "userPtr" ∧
      (mainBody.get j).2 = Stmt.derefMethod "userPtr" "getName" := by
  decide

/-- Claim C3: the destructor `User::~User` applies `delete` to the
member `firstName`, and `firstName` is declared with the non-pointer
type `std::string` in both `User` class declarations. -/
theorem C3_dtor_deletes_nonpointer :
    "firstName" ∈ userDtorDeletedMembers ∧
    ∀ c ∈ [includeUserH, srcUserH],
      c.fieldType "firstName" = some CppType.stringT ∧
      CppType.stringT.isPointer = false := by
  decide

/-- Claim C4: `setAge` is declared in `include/User.h` with a single
`float` parameter but defined in `src/User.cpp` with a single `int`
parameter, so the two signatures differ. -/
theorem C4_setAge_param_mismatch :
    (includeUserH.methodSig "setAge").map
        (fun s => s.params.map Param.ptype) = some [CppType.floatT] ∧
    (userCppDef "setAge").map
        (fun s => s.params.map Param.ptype) = some [CppType.intT] ∧
    includeUserH.methodSig "setAge" ≠ userCppDef "setAge" := by
  decide

/-- Claim C5: `getFullName` is declared non-const in `include/User.h`
but its definition in `src/User.cpp` is const-qualified, so the two
signatures differ. -/
theorem C5_getFullName_const_mismatch :
    (includeUserH.methodSig "getFullName").map MethodSig.isConst =
      some false ∧
    (userCppDef "getFullName").map MethodSig.isConst = some true ∧
    includeUserH.methodSig "getFullName" ≠ userCppDef "getFullName" := by
  decide

/-- Claim C6: the static method `createDefaultUser` is declared in
`include/User.h` with return type `User` but defined in `src/User.cpp`
with return type `int`, while its body returns a freshly constructed
`User("Default", "User", 0, "default@example.com")`. -/
theorem C6_createDefaultUser_ret_mismatch :
    (includeUserH.methodSig "createDefaultUser").map MethodSig.ret =
      some CppType.userT ∧
    (includeUserH.methodSig "createDefaultUser").map MethodSig.isStatic =
      some true ∧
    (userCppDef "createDefaultUser").map MethodSig.ret =
      some CppType.intT ∧
    createDefaultUserReturn =
      ("User", [.str "Default", .str "User", .int 0,
                .str "default@example.com"]) ∧
    CppType.userT ≠ CppType.intT := by
  decide

/-- Claim C7: `main` constructs `user2` with the two arguments
`"Jane"` and `"Smith"` (line 27), while every non-copy `User`
constructor declared in either header takes exactly 4 parameters. -/
theorem C7_user2_arity_mismatch :
    (∃ s ∈ mainBody,
      s.1 = 27 ∧
      s.2 = Stmt.ctorCall "user2" [Arg.str "Jane", Arg.str "Smith"] ∧
      ([Arg.str "Jane", Arg.str "Smith"] : List Arg).length = 2) ∧
    (∀ ps ∈ includeUserH.nonCopyCtors, ps.length = 4) ∧
    (∀ ps ∈ srcUserH.nonCopyCtors, ps.length = 4) := by
  decide

/-- Claim C8: `include/User.h` declares `setAge`, `getFullName`,
`getEmail`, `getAge`, `createDefaultUser`, a copy constructor and a
destructor, none of which are declared in `src/User.h`; consequently
the two class declarations are not equal. -/
theorem C8_headers_inconsistent :
    (∀ m ∈ ["setAge", "getFullName", "getEmail", "getAge",
            "createDefaultUser"],
      (includeUserH.methodSig m).isSome = true ∧
      srcUserH.methodSig m = none) ∧
    (∃ ps ∈ includeUserH.ctors, isCopyCtorParams ps = true) ∧
    (∀ ps ∈ srcUserH.ctors, isCopyCtorParams ps = false) ∧
    includeUserH.hasDtor = true ∧
    srcUserH.hasDtor = false ∧
    includeUserH ≠ srcUserH := by
  decide

/-- Claim C9: the copy constructor copies `firstName`, `lastName` and
`age` from the source object and never writes `email`, so the copy's
`email` is the default-constructed empty string, and it differs from
the source's `email` whenever that is non-empty. -/
theorem C9_copy_ctor_email_frame (u : UserState) :
    (copyCtor u).firstName = u.firstName ∧
    (copyCtor u).lastName = u.lastName ∧
    (copyCtor u).age = u.age ∧
    (copyCtor u).email = "" ∧
    (u.email ≠ "" → (copyCtor u).email ≠ u.email) := by
  refine ⟨rfl, rfl, rfl, rfl, fun h => ?_⟩
  simpa [copyCtor] using Ne.symm h

/-- Witness for C9 at a concrete `User` with non-empty email. -/
theorem C9_copy_ctor_email_frame_witness :
    (copyCtor ⟨"Test", "User", 30, "test@example.com"⟩).firstName =
      "Test" ∧
    (copyCtor ⟨"Test", "User", 30, "test@example.com"⟩).lastName =
      "User" ∧
    (copyCtor ⟨"Test", "User", 30, "test@example.com"⟩).age = 30 ∧
    (copyCtor ⟨"Test", "User", 30, "test@example.com"⟩).email = "" ∧
    (copyCtor ⟨"Test", "User", 30, "test@example.com"⟩).email ≠
      "test@example.com" :=
  have h := C9_copy_ctor_email_frame ⟨"Test", "User", 30, "test@example.com"⟩
  ⟨h.1, h.2.1, h.2.2.1, h.2.2.2.1, h.2.2.2.2 (by decide)⟩

/-- Claim C10: `setAge` assigns `newAge` to `age` unconditionally (the
negative branch touches only `isValid`), so after `u.setAge(n)` the
call `u.getAge()` returns `n`, for every state, flag and integer. -/
theorem C10_setAge_then_getAge (u : UserState) (isValid : Bool) (n : Int) :
    getAge (setAgeRun u isValid n).1 = n :=
  rfl

/-- Witness for C10 at a concrete state and a negative age. -/
theorem C10_setAge_then_getAge_witness :
    getAge (setAgeRun ⟨"Jane", "Smith", 25, ""⟩ true (-5)).1 = -5 :=
  C10_setAge_then_getAge ⟨"Jane", "Smith", 25, ""⟩ true (-5)
